/-
Verification of the fslanat batch pipeline (a2cps/fslanat).

The development shallowly embeds the two source files
`src/fslanat/flows/fslanat.py` and `src/fslanat/cli/fslanat.py`:

* path/basename arithmetic (`_img_stem`, `_predict_fsl_anat_output`,
  Python's `Path.with_suffix` semantics) over `List Char`;
* the affine-matrix pipeline of `_reorient2standard` / `_precrop`
  (`convert_xfm -inverse` / `-concat`) over 4x4 rational matrices;
* the noise-regularization and cropping data flow of `_precrop` over
  flattened voxel lists (`List Rat`), with the Gaussian generator and the
  external tools (`fslreorient2std`, `robustfov`, `fslroi`) as abstract
  parameters;
* the per-subject task `_fslanat` (skip-if-exists, staging, engine
  invocation, validation, `shutil.copytree` publication) as a function on
  an explicit filesystem model;
* the batch flow `fslanat_flow` (length validation before dispatch).

External binaries are modelled as opaque parameters; rationals stand in
for IEEE doubles, so statements about numeric tolerance are exact here.
-/
import Mathlib

/-! ## Python string/path primitives (from `_img_stem` / `_predict_fsl_anat_output`)

Python strings are modelled as `List Char`.  `str.removesuffix` drops the
suffix when present.  `PurePath.with_suffix` replaces the suffix of the
final component, where the suffix starts at the last dot whose index `i`
satisfies `0 < i < len - 1` (CPython's `PurePath.suffix`). -/

/-- Python `s.removesuffix(suf)`: drop `suf` from the end when it is a
suffix, otherwise return `s` unchanged. -/
def pyRemovesuffix (s suf : List Char) : List Char :=
  if suf.isSuffixOf s then s.take (s.length - suf.length) else s

/-- `_img_stem(img) = img.name.removesuffix(".gz").removesuffix(".nii")`. -/
def imgStem (name : List Char) : List Char :=
  pyRemovesuffix (pyRemovesuffix name ".gz".toList) ".nii".toList

/-- Index of the last `.` in a name, if any. -/
def lastDotPos (cs : List Char) : Option Nat :=
  match (cs.reverse.findIdx? (fun c => c = '.')) with
  | none => none
  | some k => some (cs.length - 1 - k)

/-- Start index of the Python `PurePath.suffix` of a single path
component: the last dot, provided it is neither the first nor the last
character; `none` when the component has no suffix. -/
def pySuffixStart (cs : List Char) : Option Nat :=
  match lastDotPos cs with
  | none => none
  | some i => if 0 < i ∧ i < cs.length - 1 then some i else none

/-- Python `PurePath.with_suffix(suf)` on a single path component: strip
the existing suffix, if any, then append `suf`. -/
def pyWithSuffix (cs suf : List Char) : List Char :=
  match pySuffixStart cs with
  | none => cs ++ suf
  | some i => cs.take i ++ suf

/-- `_predict_fsl_anat_output(out, basename) = (out / basename).with_suffix(".anat")`,
modelled at the level of the final path component (the directory part of
`out` is untouched by `with_suffix`). -/
def predictFslAnatOutputName (basename : List Char) : List Char :=
  pyWithSuffix basename ".anat".toList

/-- Predicted final output component for an input image file name:
`_predict_fsl_anat_output(out, _img_stem(image))`. -/
def predictedOutputOfImage (imageName : List Char) : List Char :=
  predictFslAnatOutputName (imgStem imageName)

/-! ## Affine transform pipeline (from `_reorient2standard` and `_precrop`)

`convert_xfm -omat O -inverse A` writes the matrix inverse of `A` to `O`;
`convert_xfm -omat O -concat B A` writes `B * A` (apply `A` first).  The
pipeline persists six `.mat` files: `_reorient2standard` writes
`T1_orig2std.mat` (from `fslreorient2std`) and `T1_std2orig.mat` (its
inverse); `_precrop` obtains `T1_roi2nonroi.mat` from `robustfov -m`,
then writes `T1_nonroi2roi.mat` (inverse), `T1_orig2roi.mat`
(`-concat T1_nonroi2roi.mat T1_orig2std.mat`), and `T1_roi2orig.mat`
(inverse of that). -/

/-- 4x4 affine matrices over the rationals (standing in for doubles). -/
abbrev M4 : Type := Matrix (Fin 4) (Fin 4) ℚ

/-- `convert_xfm -inverse`: the matrix inverse, computed as the adjugate
scaled by the determinant's reciprocal. -/
def convertXfmInverse (A : M4) : M4 := A.det⁻¹ • A.adjugate

/-- `convert_xfm -concat B A`: the composition applying `A` first. -/
def convertXfmConcat (B A : M4) : M4 := B * A

/-- The six `.mat` files persisted in the working directory, as
(name, matrix) pairs, given the `fslreorient2std` output `orig2std` and
the `robustfov -m` output `roi2nonroi`. -/
def transformFiles (orig2std roi2nonroi : M4) : List (String × M4) :=
  [("T1_orig2std.mat", orig2std),
   ("T1_std2orig.mat", convertXfmInverse orig2std),
   ("T1_roi2nonroi.mat", roi2nonroi),
   ("T1_nonroi2roi.mat", convertXfmInverse roi2nonroi),
   ("T1_orig2roi.mat",
     convertXfmConcat (convertXfmInverse roi2nonroi) orig2std),
   ("T1_roi2orig.mat",
     convertXfmInverse
       (convertXfmConcat (convertXfmInverse roi2nonroi) orig2std))]

/-- Look a matrix up among the persisted files, defaulting to `0`. -/
def matFile (fs : List (String × M4)) (name : String) : M4 :=
  (fs.lookup name).getD 0

/-! ## Noise regularization (from `_precrop`, lines 86-97)

The flattened voxel array is a `List ℚ`.  The source computes
`nonzero_i = np.flatnonzero(data)` (indices of *nonzero* voxels),
`sigma = np.quantile(data.flat[nonzero_i], 0.9) * 0.005`, and adds
`np.random.normal(0, sigma, size=nonzero_i.shape)` to exactly those
voxels.  The Gaussian generator is an abstract parameter
`gauss : ℚ → Nat → ℚ` giving the draw at each position of the requested
vector for a given standard deviation. -/

/-- `np.quantile(xs, q)` with the default linear interpolation method:
sort, set `h = q * (n - 1)`, and interpolate between the values at
`⌊h⌋` and `⌊h⌋ + 1`.  Meaningful only for nonempty `xs`: on an empty
array `np.quantile` raises instead of returning, an error path that
`precropRunE` checks before this function is consulted. -/
def npQuantile (xs : List ℚ) (q : ℚ) : ℚ :=
  let s := List.insertionSort (fun a b : ℚ => a ≤ b) xs
  let lo := (⌊q * ((s.length : ℚ) - 1)⌋).toNat
  let g := q * ((s.length : ℚ) - 1) - (lo : ℚ)
  s.getD lo 0 + g * (s.getD (lo + 1) 0 - s.getD lo 0)

/-- `sigma = np.quantile(data.flat[nonzero_i], 0.9) * 0.005`: the values
at the nonzero indices are exactly the nonzero values in order. -/
def precropSigma (d : List ℚ) : ℚ :=
  npQuantile (d.filter (fun y => decide (y ≠ 0))) (9 / 10) * (5 / 1000)

/-- The noise-perturbed copy: each nonzero voxel receives the next draw
of a Gaussian vector with standard deviation `precropSigma d`; zero
voxels keep their value.  The draw index of voxel `i` is its rank among
the nonzero indices, matching `noisy.flat[nonzero_i] += ...`. -/
def precropNoisy (gauss : ℚ → Nat → ℚ) (d : List ℚ) : List ℚ :=
  d.mapIdx fun i x =>
    if x = 0 then x
    else x + gauss (precropSigma d) ((d.take i).countP (fun y => decide (y ≠ 0)))

/-- A volume as loaded by nibabel: voxel data plus affine and header. -/
structure Volume where
  data : List ℚ
  affine : M4
  header : String
deriving DecidableEq

/-! ## `_precrop` data flow (lines 71-153)

External tools are abstract parameters: `reorient` is the action of
`fslreorient2std` on the voxel data, `crop` is the action of `fslroi`
given the bounds string fields, and `robustfovLines` is the stdout of
`robustfov -m ... -i noisy` split into lines.  The run records the
ordered external invocations (with the volume data each one receives)
and the files left in the anat directory (with voxel data for volumes).
The noisy volume is written only to a `NamedTemporaryFile`, which the
`with` block deletes, so it never appears among the directory's files.
`roi = log.stdout.splitlines()[1]` raises `IndexError` when the stdout
has fewer than two lines.  Two further failures precede the estimator:
`np.quantile` (line 90) raises on a volume with no nonzero voxel, and
`np.random.normal` (line 92) raises `ValueError` when the scale
`sigma = 0.005 * quantile` is negative, which happens when the
0.9-quantile of the nonzero intensities is negative.  `precropRun`
models only the estimator-stdout failure (its statements quantify over
runs on which the noise step is well-posed); `precropRunE` below refines
it with the two numpy error paths. -/

/-- One external-tool invocation inside `_precrop`. -/
inductive PrecropEvent where
  | fslmathsCopy (dst : String)
  | fslreorient2stdLog
  | fslreorient2stdInPlace
  | robustfovRun (input : List ℚ)
  | fslroiRun (input : List ℚ) (bounds : List String)
  | convertXfmInv (omat src : String)
  | convertXfmCat (omat b a : String)
deriving DecidableEq

/-- Outcome of `_precrop`: ordered events, anat-directory contents
(volume data where the entry is a volume), and the raised error, if
any. -/
structure PrecropRun where
  events : List PrecropEvent
  files : List (String × Option (List ℚ))
  err : Option String
deriving DecidableEq

/-- Shallow embedding of `_precrop` (including `_reorient2standard`). -/
def precropRun (gauss : ℚ → Nat → ℚ) (reorient : List ℚ → List ℚ)
    (crop : List ℚ → List String → List ℚ)
    (robustfovLines : List String) (t1 : List ℚ) : PrecropRun :=
  let v1 := reorient t1
  let noisy := precropNoisy gauss v1
  let preEvents : List PrecropEvent :=
    [.fslmathsCopy "T1_orig", .fslreorient2stdLog,
     .convertXfmInv "T1_std2orig.mat" "T1_orig2std.mat",
     .fslreorient2stdInPlace, .robustfovRun noisy]
  let preFiles : List (String × Option (List ℚ)) :=
    [("T1_orig.nii.gz", some t1), ("T1_orig2std.mat", none),
     ("T1_std2orig.mat", none), ("T1_fullfov.nii.gz", some v1),
     ("T1_roi2nonroi.mat", none)]
  match robustfovLines.get? 1 with
  | none =>
      { events := preEvents, files := preFiles,
        err := some "IndexError: list index out of range" }
  | some roi =>
      { events := preEvents ++
          [.fslroiRun v1 (roi.splitOn " "),
           .convertXfmInv "T1_nonroi2roi.mat" "T1_roi2nonroi.mat",
           .convertXfmCat "T1_orig2roi.mat" "T1_nonroi2roi.mat"
             "T1_orig2std.mat",
           .convertXfmInv "T1_roi2orig.mat" "T1_orig2roi.mat"],
        files := preFiles ++
          [("T1_roi.log", none),
           ("T1.nii.gz", some (crop v1 (roi.splitOn " "))),
           ("T1_nonroi2roi.mat", none), ("T1_orig2roi.mat", none),
           ("T1_roi2orig.mat", none)],
        err := none }

/-- Recognizes the robust field-of-view invocation. -/
def isRobustfovEvent : PrecropEvent → Bool
  | .robustfovRun _ => true
  | _ => false

/-- Shallow embedding of `_precrop` including the two numpy error paths
of the noise step, in source order: after `_reorient2standard` and the
move to `T1_fullfov`, `np.quantile` (line 90) raises when the volume has
no nonzero voxel, and `np.random.normal` (line 92) raises when the noise
scale is negative; both abort before the tempfile is written and the
estimator runs, with only the reorientation tools invoked and their
files on disk.  On volumes where the noise step is well-posed this run
coincides with `precropRun`. -/
def precropRunE (gauss : ℚ → Nat → ℚ) (reorient : List ℚ → List ℚ)
    (crop : List ℚ → List String → List ℚ)
    (robustfovLines : List String) (t1 : List ℚ) : PrecropRun :=
  let v1 := reorient t1
  let reorientEvents : List PrecropEvent :=
    [.fslmathsCopy "T1_orig", .fslreorient2stdLog,
     .convertXfmInv "T1_std2orig.mat" "T1_orig2std.mat",
     .fslreorient2stdInPlace]
  let reorientFiles : List (String × Option (List ℚ)) :=
    [("T1_orig.nii.gz", some t1), ("T1_orig2std.mat", none),
     ("T1_std2orig.mat", none), ("T1_fullfov.nii.gz", some v1)]
  if (v1.filter fun y => decide (y ≠ 0)).isEmpty then
    { events := reorientEvents, files := reorientFiles,
      err := some "IndexError: np.quantile of an empty array" }
  else if precropSigma v1 < 0 then
    { events := reorientEvents, files := reorientFiles,
      err := some "ValueError: scale < 0" }
  else
    precropRun gauss reorient crop robustfovLines t1

/-! ## Per-subject task `_fslanat` (lines 156-195)

The filesystem of published outputs is an association list from final
path components to directory contents.  The external engine is an
abstract parameter from workdir contents to workdir contents (it writes
its artifacts into the working directory in place); its process exit
status is a separate abstract parameter, captured but never read.  The
working directory is a `tempfile.TemporaryDirectory`, removed when the
`with` block exits on every path, so the run always ends with no
surviving working directory. -/

/-- Terminal outcome of one per-subject task. -/
inductive TaskOutcome where
  | skipped
  | done
  | failed
deriving DecidableEq

/-- Side effects performed by one per-subject task. -/
inductive TaskEvent where
  | copyInput
  | precropChain
  | engineInvoke (flags : List String) (exitCode : Int)
deriving DecidableEq

/-- Result of one `_fslanat` run: ordered side effects, published
outputs afterwards, the surviving working directory (always `none`:
the `with tempfile.TemporaryDirectory()` block removes it), and the
outcome. -/
structure TaskRun where
  events : List TaskEvent
  fs : List (List Char × List String)
  tempDirAfter : Option (List String)
  outcome : TaskOutcome

/-- Modelled from the spec: `FSLAnatResult.from_root` (module
`fslanat.models.fslanat`, not part of the sources) confirms that every
file required by the output contract is present in the directory and
raises a missing-artifact error otherwise. -/
def validatorOk (required wd : List String) : Bool :=
  required.all fun f => wd.contains f

/-- Working-directory contents after staging: the copied input volume,
plus the `_precrop` artifacts when the crop flag is set. -/
def stagedWorkdir (precrop : Bool) : List String :=
  "T1.nii.gz" ::
    (if precrop then
      ["T1_orig.nii.gz", "T1_orig2std.mat", "T1_std2orig.mat",
       "T1_fullfov.nii.gz", "T1_roi2nonroi.mat", "T1_roi.log",
       "T1_nonroi2roi.mat", "T1_orig2roi.mat", "T1_roi2orig.mat"]
    else [])

/-- `fsl_anat` flags chosen by `_fslanat`. -/
def taskFlags (precrop strongbias : Bool) : List String :=
  (if precrop then ["--nocrop", "--noreorient"] else []) ++
    (if strongbias then ["--strongbias"] else [])

/-- Shallow embedding of the `_fslanat` task body. -/
def fslanatTask (engine : List String → List String) (exitCode : Int)
    (required : List String) (fs : List (List Char × List String))
    (image : List Char) (precrop strongbias : Bool) : TaskRun :=
  let anat := predictedOutputOfImage image
  if (fs.lookup anat).isSome then
    { events := [], fs := fs, tempDirAfter := none, outcome := .skipped }
  else
    let wd1 := engine (stagedWorkdir precrop)
    let ev := TaskEvent.copyInput ::
      ((if precrop then [TaskEvent.precropChain] else []) ++
        [TaskEvent.engineInvoke (taskFlags precrop strongbias) exitCode])
    if validatorOk required wd1 then
      { events := ev, fs := fs ++ [(anat, wd1)], tempDirAfter := none,
        outcome := .done }
    else
      { events := ev, fs := fs, tempDirAfter := none, outcome := .failed }

/-! ## The publish step `shutil.copytree(tmpdir, anat)` (line 195)

`copytree` recursively copies; observed at file granularity it first
creates the destination directory, then copies entries one at a time,
and never mutates the source.  `copytreeStates` lists the filesystem
snapshots a concurrent reader can observe: source contents plus the
state of the destination (`none` = absent). -/

/-- One observable snapshot during publication. -/
structure PubState where
  work : List String
  dest : Option (List String)
deriving DecidableEq

/-- The snapshots of `shutil.copytree(tmpdir, anat)`: destination
absent, then created, then gaining the entries one by one. -/
def copytreeStates (files : List String) : List PubState :=
  ⟨files, none⟩ ::
    (List.range (files.length + 1)).map fun k => ⟨files, some (files.take k)⟩

/-! ## Batch flow `fslanat_flow` (lines 198-229)

Length validation happens before the dispatch loop: a supplied
`precrops` (checked first) or `strongbias` list whose length differs
from `images` raises an `AssertionError`; otherwise one task is
submitted per image, zipped with its two flags. -/

/-- Resolve an optional per-subject flag list: default to all-`False`,
and reject a supplied list whose length differs from the image count. -/
def resolveFlags (n : Nat) (flags : Option (List Bool)) (msg : String) :
    Except String (List Bool) :=
  match flags with
  | none => .ok (List.replicate n false)
  | some l => if n = l.length then .ok l else .error msg

/-- Result of `fslanat_flow`: the dispatched per-subject tasks
(image, precrop flag, strongbias flag) and the raised error, if any. -/
structure FlowRun where
  dispatched : List (List Char × Bool × Bool)
  err : Option String
deriving DecidableEq

/-- Shallow embedding of `fslanat_flow`. -/
def fslanatFlow (images : List (List Char))
    (precrops strongbias : Option (List Bool)) : FlowRun :=
  match resolveFlags images.length precrops
      "If precrops is provided, it must have the same lengths as images." with
  | .error e => { dispatched := [], err := some e }
  | .ok ps =>
    match resolveFlags images.length strongbias
        "If strongbias is provided, it must have the same lengths as images." with
    | .error e => { dispatched := [], err := some e }
    | .ok ss =>
      { dispatched := (images.zip (ps.zip ss)).map fun x => (x.1, x.2.1, x.2.2),
        err := none }

/-! ## Helper lemmas -/

/-- `convertXfmInverse` agrees with Mathlib's matrix inverse over `ℚ`. -/
theorem convertXfmInverse_eq_inv (A : M4) : convertXfmInverse A = A⁻¹ := by
  rw [Matrix.inv_def, Ring.inverse_eq_inv]
  rfl

/-- A component with a Python suffix has its suffix start strictly
inside the name. -/
theorem pySuffixStart_bounds (cs : List Char) (i : Nat)
    (h : pySuffixStart cs = some i) : 0 < i ∧ i + 1 < cs.length := by
  unfold pySuffixStart at h
  split at h
  · cases h
  · split at h
    · cases h
      omega
    · cases h

/-- On a volume whose noise step is well-posed (some nonzero voxel and a
nonnegative noise scale), the refined run agrees with `precropRun`. -/
theorem precropRunE_healthy (gauss : ℚ → Nat → ℚ)
    (reorient : List ℚ → List ℚ) (crop : List ℚ → List String → List ℚ)
    (lines : List String) (d : List ℚ)
    (hne : ((reorient d).filter fun y => decide (y ≠ 0)).isEmpty = false)
    (hs : 0 ≤ precropSigma (reorient d)) :
    precropRunE gauss reorient crop lines d =
      precropRun gauss reorient crop lines d := by
  unfold precropRunE
  simp only [hne, Bool.false_eq_true, if_false]
  rw [if_neg (not_lt.mpr hs)]

/-- C9 (counterexample): for the image name `sub.01.nii.gz` the stripped
basename is `sub.01`, yet the predicted output component is `sub.anat`,
not `sub.01.anat`: `with_suffix` replaced the basename's residual
dot-suffix instead of appending. -/
theorem c9_counterexample :
    imgStem "sub.01.nii.gz".toList = "sub.01".toList ∧
    predictedOutputOfImage "sub.01.nii.gz".toList = "sub.anat".toList ∧
    predictedOutputOfImage "sub.01.nii.gz".toList ≠
      imgStem "sub.01.nii.gz".toList ++ ".anat".toList := by
  exact ⟨by decide, by decide, by decide⟩

/-- C9 (amended): the predicted final output component equals
`<basename>.anat` exactly when the stripped basename has no Python
path-suffix (no dot strictly inside it); otherwise `with_suffix`
replaces the part from the basename's last dot with `.anat`. -/
theorem c9_amended (name : List Char) :
    predictedOutputOfImage name = imgStem name ++ ".anat".toList ↔
      pySuffixStart (imgStem name) = none := by
  unfold predictedOutputOfImage predictFslAnatOutputName pyWithSuffix
  cases h : pySuffixStart (imgStem name) with
  | none => simp
  | some i =>
    obtain ⟨hi0, hilen⟩ := pySuffixStart_bounds _ _ h
    constructor
    · intro he
      exfalso
      have hlen := congrArg List.length he
      simp only [List.length_append, List.length_take] at hlen
      omega
    · intro hc
      cases hc

/-- C1: when the predicted final output path already exists, `_fslanat`
performs no side effect at all: no staging, no precrop, no engine
invocation, no filesystem change, and the run counts as skipped. -/
theorem c1_skip_when_output_exists (engine : List String → List String)
    (exitCode : Int) (required : List String)
    (fs : List (List Char × List String)) (image : List Char)
    (precrop strongbias : Bool)
    (h : (fs.lookup (predictedOutputOfImage image)).isSome = true) :
    fslanatTask engine exitCode required fs image precrop strongbias =
      { events := [], fs := fs, tempDirAfter := none,
        outcome := TaskOutcome.skipped } := by
  unfold fslanatTask
  simp [h]

/-- C1 witness: a filesystem already holding `x.anat` makes the task for
`x.nii` skip. -/
theorem c1_skip_when_output_exists_witness :
    ((([("x.anat".toList, ["T1.nii.gz"])] :
        List (List Char × List String)).lookup
          (predictedOutputOfImage "x.nii".toList)).isSome = true) ∧
    fslanatTask (fun wd => wd ++ ["extra"]) 0 ["T1.nii.gz"]
        [("x.anat".toList, ["T1.nii.gz"])] "x.nii".toList true true =
      { events := [], fs := [("x.anat".toList, ["T1.nii.gz"])],
        tempDirAfter := none, outcome := TaskOutcome.skipped } :=
  ⟨by decide,
   c1_skip_when_output_exists (fun wd => wd ++ ["extra"]) 0 ["T1.nii.gz"]
     [("x.anat".toList, ["T1.nii.gz"])] "x.nii".toList true true (by decide)⟩

/-- C7: the task outcome never depends on the engine's exit status; in a
non-skipped run the task succeeds exactly when the validator finds every
required artifact, and on validation failure nothing is published and
the working directory does not survive. -/
theorem c7_validator_sole_authority (engine : List String → List String)
    (e1 e2 : Int) (required : List String)
    (fs : List (List Char × List String)) (image : List Char)
    (precrop strongbias : Bool)
    (h : fs.lookup (predictedOutputOfImage image) = none) :
    ((fslanatTask engine e1 required fs image precrop strongbias).outcome =
        (fslanatTask engine e2 required fs image precrop strongbias).outcome ∧
      (fslanatTask engine e1 required fs image precrop strongbias).fs =
        (fslanatTask engine e2 required fs image precrop strongbias).fs) ∧
    ((fslanatTask engine e1 required fs image precrop strongbias).outcome =
        TaskOutcome.done ↔
      validatorOk required (engine (stagedWorkdir precrop)) = true) ∧
    (validatorOk required (engine (stagedWorkdir precrop)) = false →
      (fslanatTask engine e1 required fs image precrop strongbias).fs = fs ∧
      (fslanatTask engine e1 required fs image precrop strongbias).outcome =
        TaskOutcome.failed ∧
      (fslanatTask engine e1 required fs image precrop strongbias).tempDirAfter =
        none) := by
  unfold fslanatTask
  simp only [h, Option.isSome_none, Bool.false_eq_true, if_false]
  by_cases hv : validatorOk required (engine (stagedWorkdir precrop)) = true <;>
    simp [hv]

/-- C7 witness: with an empty output root, an engine leaving the staged
volume in place, and that volume as the sole required artifact, the
conclusions hold at exit statuses 0 and 1. -/
theorem c7_validator_sole_authority_witness :
    (([] : List (List Char × List String)).lookup
        (predictedOutputOfImage "x.nii".toList) = none) ∧
    (((fslanatTask (fun wd => wd) 0 ["T1.nii.gz"] [] "x.nii".toList false
          false).outcome =
        (fslanatTask (fun wd => wd) 1 ["T1.nii.gz"] [] "x.nii".toList false
          false).outcome ∧
      (fslanatTask (fun wd => wd) 0 ["T1.nii.gz"] [] "x.nii".toList false
          false).fs =
        (fslanatTask (fun wd => wd) 1 ["T1.nii.gz"] [] "x.nii".toList false
          false).fs) ∧
    ((fslanatTask (fun wd => wd) 0 ["T1.nii.gz"] [] "x.nii".toList false
          false).outcome = TaskOutcome.done ↔
      validatorOk ["T1.nii.gz"] ((fun wd => wd) (stagedWorkdir false)) =
        true) ∧
    (validatorOk ["T1.nii.gz"] ((fun wd => wd) (stagedWorkdir false)) =
        false →
      (fslanatTask (fun wd => wd) 0 ["T1.nii.gz"] [] "x.nii".toList false
          false).fs = [] ∧
      (fslanatTask (fun wd => wd) 0 ["T1.nii.gz"] [] "x.nii".toList false
          false).outcome = TaskOutcome.failed ∧
      (fslanatTask (fun wd => wd) 0 ["T1.nii.gz"] [] "x.nii".toList false
          false).tempDirAfter = none)) :=
  ⟨rfl, c7_validator_sole_authority (fun wd => wd) 0 1 ["T1.nii.gz"] []
    "x.nii".toList false false rfl⟩

/-- C8: a supplied crop-flag or bias-flag list whose length differs from
the image count makes the flow raise and dispatch no task at all. -/
theorem c8_length_mismatch (images : List (List Char))
    (ps ss : Option (List Bool)) (l : List Bool)
    (h : (ps = some l ∧ l.length ≠ images.length) ∨
      (ss = some l ∧ l.length ≠ images.length)) :
    (fslanatFlow images ps ss).dispatched = [] ∧
    (fslanatFlow images ps ss).err.isSome = true := by
  rcases h with ⟨hps, hlen⟩ | ⟨hss, hlen⟩
  · subst hps
    simp only [fslanatFlow, resolveFlags]
    rw [if_neg (fun hc => hlen hc.symm)]
    exact ⟨rfl, rfl⟩
  · subst hss
    simp only [fslanatFlow]
    cases hr : resolveFlags images.length ps
        "If precrops is provided, it must have the same lengths as images." with
    | error e => exact ⟨rfl, rfl⟩
    | ok l2 =>
      simp only [resolveFlags]
      rw [if_neg (fun hc => hlen hc.symm)]
      exact ⟨rfl, rfl⟩

/-- C8 witness: one flag for zero images is rejected with nothing
dispatched. -/
theorem c8_length_mismatch_witness :
    ((some [true] = some [true] ∧ [true].length ≠ ([] : List (List Char)).length) ∨
      ((none : Option (List Bool)) = some [true] ∧
        [true].length ≠ ([] : List (List Char)).length)) ∧
    (fslanatFlow [] (some [true]) none).dispatched = [] ∧
    (fslanatFlow [] (some [true]) none).err.isSome = true :=
  ⟨Or.inl ⟨rfl, by decide⟩,
   c8_length_mismatch [] (some [true]) none [true] (Or.inl ⟨rfl, by decide⟩)⟩

/-- C2 (counterexample): publishing a two-file working directory via
`shutil.copytree` exposes a snapshot in which the final path exists but
holds only the first file, and the source still holds both files in
every snapshot (a copy, not a move). -/
theorem c2_counterexample :
    (copytreeStates ["T1.nii.gz", "T1_biascorr.nii.gz"]).get? 2 =
      some { work := ["T1.nii.gz", "T1_biascorr.nii.gz"],
             dest := some ["T1.nii.gz"] } ∧
    (some ["T1.nii.gz"] : Option (List String)) ≠
      some ["T1.nii.gz", "T1_biascorr.nii.gz"] ∧
    (copytreeStates ["T1.nii.gz", "T1_biascorr.nii.gz"]).all
      (fun s => decide (s.work = ["T1.nii.gz", "T1_biascorr.nii.gz"])) =
      true := by
  exact ⟨by decide, by decide, by decide⟩

/-- C2 (amended): `shutil.copytree` publication starts with the final
path absent, ends with it holding the full working-directory contents,
and never removes anything from the working directory: the transfer is
a file-by-file copy, with intermediate snapshots visible at the final
path. -/
theorem c2_amended (files : List String) :
    (copytreeStates files).head? = some { work := files, dest := none } ∧
    (copytreeStates files).getLast? =
      some { work := files, dest := some files } ∧
    ∀ s ∈ copytreeStates files, s.work = files := by
  refine ⟨rfl, ?_, ?_⟩
  · unfold copytreeStates
    rw [List.range_succ, List.map_append, List.map_cons, List.map_nil,
      ← List.cons_append, List.getLast?_append_cons, List.take_length]
    rfl
  · intro s hs
    simp only [copytreeStates, List.mem_cons, List.mem_map,
      List.mem_range] at hs
    rcases hs with rfl | ⟨k, _, rfl⟩ <;> rfl

/-- C10: the noise-injection step is a deterministic function of the
voxel data and the generator state: two volumes with the same data give
bit-identical perturbed data under the same seeded generator, whatever
their affines or headers. -/
theorem c10_noise_determinism (rng : Nat → ℚ → Nat → ℚ) (seed : Nat)
    (v1 v2 : Volume) (h : v1.data = v2.data) :
    precropNoisy (rng seed) v1.data = precropNoisy (rng seed) v2.data := by
  rw [h]

/-- C10 witness: two volumes sharing data but differing in header. -/
theorem c10_noise_determinism_witness :
    ({ data := [1, 0], affine := 1, header := "a" } : Volume).data =
      ({ data := [1, 0], affine := 0, header := "b" } : Volume).data ∧
    precropNoisy ((fun (_ : Nat) (s : ℚ) (k : Nat) => s + (k : ℚ)) 7)
        ({ data := [1, 0], affine := 1, header := "a" } : Volume).data =
      precropNoisy ((fun (_ : Nat) (s : ℚ) (k : Nat) => s + (k : ℚ)) 7)
        ({ data := [1, 0], affine := 0, header := "b" } : Volume).data :=
  ⟨rfl, c10_noise_determinism (fun (_ : Nat) (s : ℚ) (k : Nat) => s + (k : ℚ)) 7
    { data := [1, 0], affine := 1, header := "a" }
    { data := [1, 0], affine := 0, header := "b" } rfl⟩

/-- C5 (counterexample): on the volume `[-1, 0, 2]` the voxel at index 0
has intensity `-1`, which is not strictly positive and so is background
under the claim, yet the noise step perturbs it: non-background is
*nonzero*, not strictly positive. -/
theorem c5_counterexample :
    ((-1 : ℚ) ≤ 0) ∧
    (precropNoisy (fun _ _ => 1) [-1, 0, 2]).get? 0 ≠
      (([-1, 0, 2] : List ℚ)).get? 0 := by
  exact ⟨by norm_num, by norm_num [precropNoisy, List.mapIdx_cons]⟩

/-- C5 (amended): the perturbed copy changes exactly the *nonzero*
voxels: a zero voxel is returned unchanged, and a nonzero voxel at index
`i` receives the draw at its rank among the nonzero indices of a noise
vector whose standard deviation is the 0.9-quantile of the nonzero
intensities scaled by 0.005. -/
theorem c5_amended (gauss : ℚ → Nat → ℚ) (d : List ℚ) (i : Nat) (x : ℚ)
    (hx : d.get? i = some x) :
    (precropNoisy gauss d).get? i =
      some (if x = 0 then x
        else x + gauss
          (npQuantile (d.filter fun y => decide (y ≠ 0)) (9 / 10) *
            (5 / 1000))
          ((d.take i).countP fun y => decide (y ≠ 0))) := by
  obtain ⟨hlen, hget⟩ := List.get?_eq_some.mp hx
  have hlen2 : i < (precropNoisy gauss d).length := by
    simpa [precropNoisy, List.length_mapIdx] using hlen
  rw [List.get?_eq_get hlen2]
  unfold precropNoisy
  rw [List.get_mapIdx _ _ _ hlen, hget]
  rfl

/-- C5 witness: at index 0 of `[-1, 0, 2]` the conclusion holds. -/
theorem c5_amended_witness :
    (([-1, 0, 2] : List ℚ).get? 0 = some (-1)) ∧
    (precropNoisy (fun _ _ => 1) [-1, 0, 2]).get? 0 =
      some (if (-1 : ℚ) = 0 then (-1 : ℚ)
        else (-1 : ℚ) + (fun _ _ => (1 : ℚ))
          (npQuantile (([-1, 0, 2] : List ℚ).filter fun y => decide (y ≠ 0))
            (9 / 10) * (5 / 1000))
          ((([-1, 0, 2] : List ℚ).take 0).countP fun y => decide (y ≠ 0))) :=
  ⟨by decide, c5_amended (fun _ _ => 1) [-1, 0, 2] 0 (-1) (by decide)⟩

/-- C4 (counterexample): the volume `[-1, 0, 2]` has a voxel strictly
below zero (its noise scale, 17/2000, is nonnegative), yet `_precrop`
raises no validation error and still invokes the external estimator: no
negative-intensity guard exists. -/
theorem c4_counterexample :
    ((-1 : ℚ) ∈ ([-1, 0, 2] : List ℚ) ∧ (-1 : ℚ) < 0) ∧
    (precropRunE (fun _ _ => 1) id (fun v _ => v)
      ["line0", "0 10 0 10 0 10"] [-1, 0, 2]).err = none ∧
    (precropRunE (fun _ _ => 1) id (fun v _ => v)
      ["line0", "0 10 0 10 0 10"] [-1, 0, 2]).events.any
        isRobustfovEvent = true := by
  have hs : precropSigma (id [(-1 : ℚ), 0, 2]) = 17 / 2000 := by
    norm_num [precropSigma, npQuantile, List.insertionSort,
      List.orderedInsert]
  have he : precropRunE (fun _ _ => 1) id (fun v _ => v)
      ["line0", "0 10 0 10 0 10"] [-1, 0, 2] =
      precropRun (fun _ _ => 1) id (fun v _ => v)
        ["line0", "0 10 0 10 0 10"] [-1, 0, 2] :=
    precropRunE_healthy _ _ _ _ _ (by decide) (by rw [hs]; norm_num)
  rw [he]
  refine ⟨⟨by decide, by norm_num⟩, rfl, rfl⟩

/-- C4 (amended): `_precrop` performs no validation of its input
intensities.  A volume containing voxels strictly below zero is not
rejected: given a second estimator stdout line, whenever the volume has
a nonzero voxel and its noise scale (0.005 times the 0.9-quantile of
the nonzero intensities) is nonnegative, the chain runs to completion
and invokes the estimator; and when that scale is negative the failure
is only the incidental `ValueError` of `np.random.normal` at the noise
step, raised after the reorientation tools have already run, not a
validation error before any external tool. -/
theorem c4_amended (gauss : ℚ → Nat → ℚ) (reorient : List ℚ → List ℚ)
    (crop : List ℚ → List String → List ℚ) (lines : List String)
    (d : List ℚ) (roi : String) (h : lines.get? 1 = some roi)
    (hne : ((reorient d).filter fun y => decide (y ≠ 0)).isEmpty =
      false) :
    (0 ≤ precropSigma (reorient d) →
      (precropRunE gauss reorient crop lines d).err = none ∧
      (precropRunE gauss reorient crop lines d).events.any
        isRobustfovEvent = true) ∧
    (precropSigma (reorient d) < 0 →
      (precropRunE gauss reorient crop lines d).err =
        some "ValueError: scale < 0" ∧
      (precropRunE gauss reorient crop lines d).events.any
        isRobustfovEvent = false ∧
      (precropRunE gauss reorient crop lines d).events ≠ []) := by
  constructor
  · intro hs
    rw [precropRunE_healthy gauss reorient crop lines d hne hs]
    unfold precropRun
    rw [h]
    exact ⟨rfl, rfl⟩
  · intro hs
    unfold precropRunE
    simp only [hne, Bool.false_eq_true, if_false]
    rw [if_pos hs]
    exact ⟨rfl, rfl, List.cons_ne_nil _ _⟩

/-- C4 witness: the amended conclusions at a concrete
negative-intensity volume and a two-line estimator stdout. -/
theorem c4_amended_witness :
    ((["line0", "0 10 0 10 0 10"] : List String).get? 1 =
      some "0 10 0 10 0 10") ∧
    (((id [(-1 : ℚ), 0, 2]).filter fun y => decide (y ≠ 0)).isEmpty =
      false) ∧
    ((0 ≤ precropSigma (id [(-1 : ℚ), 0, 2]) →
      (precropRunE (fun _ _ => 1) id (fun v _ => v)
        ["line0", "0 10 0 10 0 10"] [-1, 0, 2]).err = none ∧
      (precropRunE (fun _ _ => 1) id (fun v _ => v)
        ["line0", "0 10 0 10 0 10"] [-1, 0, 2]).events.any
          isRobustfovEvent = true) ∧
    (precropSigma (id [(-1 : ℚ), 0, 2]) < 0 →
      (precropRunE (fun _ _ => 1) id (fun v _ => v)
        ["line0", "0 10 0 10 0 10"] [-1, 0, 2]).err =
        some "ValueError: scale < 0" ∧
      (precropRunE (fun _ _ => 1) id (fun v _ => v)
        ["line0", "0 10 0 10 0 10"] [-1, 0, 2]).events.any
          isRobustfovEvent = false ∧
      (precropRunE (fun _ _ => 1) id (fun v _ => v)
        ["line0", "0 10 0 10 0 10"] [-1, 0, 2]).events ≠ [])) :=
  ⟨rfl, by decide, c4_amended (fun _ _ => 1) id (fun v _ => v)
    ["line0", "0 10 0 10 0 10"] [-1, 0, 2] "0 10 0 10 0 10" rfl
    (by decide)⟩

/-- C6: the robust field-of-view estimator receives exactly the
noise-perturbed copy of the reoriented volume; `fslroi` receives the
un-perturbed reoriented volume together with the fields of the
estimator's second stdout line; the cropped `T1.nii.gz` is the crop of
the un-perturbed volume; and the directory contents are independent of
the noise draws, so the noisy copy is never published. -/
theorem c6_crop_unperturbed (gauss g2 : ℚ → Nat → ℚ)
    (reorient : List ℚ → List ℚ) (crop : List ℚ → List String → List ℚ)
    (lines : List String) (d : List ℚ) (roi : String)
    (h : lines.get? 1 = some roi) :
    PrecropEvent.robustfovRun (precropNoisy gauss (reorient d)) ∈
        (precropRun gauss reorient crop lines d).events ∧
    PrecropEvent.fslroiRun (reorient d) (roi.splitOn " ") ∈
        (precropRun gauss reorient crop lines d).events ∧
    (precropRun gauss reorient crop lines d).files.lookup "T1.nii.gz" =
      some (some (crop (reorient d) (roi.splitOn " "))) ∧
    (precropRun g2 reorient crop lines d).files =
      (precropRun gauss reorient crop lines d).files := by
  unfold precropRun
  rw [h]
  refine ⟨?_, ?_, rfl, rfl⟩
  · simp
  · simp

/-- C6 witness: the conclusions hold at a concrete one-voxel volume and
two-line estimator output. -/
theorem c6_crop_unperturbed_witness :
    ((["line0", "0 1"] : List String).get? 1 = some "0 1") ∧
    (PrecropEvent.robustfovRun
          (precropNoisy (fun _ _ => 0) (id [(1 : ℚ)])) ∈
        (precropRun (fun _ _ => 0) id (fun v _ => v)
          ["line0", "0 1"] [(1 : ℚ)]).events ∧
      PrecropEvent.fslroiRun (id [(1 : ℚ)]) ("0 1".splitOn " ") ∈
        (precropRun (fun _ _ => 0) id (fun v _ => v)
          ["line0", "0 1"] [(1 : ℚ)]).events ∧
      (precropRun (fun _ _ => 0) id (fun v _ => v)
          ["line0", "0 1"] [(1 : ℚ)]).files.lookup "T1.nii.gz" =
        some (some ((fun v _ => v) (id [(1 : ℚ)]) ("0 1".splitOn " "))) ∧
      (precropRun (fun _ _ => 1) id (fun v _ => v)
          ["line0", "0 1"] [(1 : ℚ)]).files =
        (precropRun (fun _ _ => 0) id (fun v _ => v)
          ["line0", "0 1"] [(1 : ℚ)]).files) :=
  ⟨rfl, c6_crop_unperturbed (fun _ _ => 0) (fun _ _ => 1) id (fun v _ => v)
    ["line0", "0 1"] [(1 : ℚ)] "0 1" rfl⟩

/-- C3: the chain persists exactly the six named affine files, each
explicitly computed inverse is the matrix inverse (products with the
identity agree within 1e-6 per element, here exactly), and the stored
`orig2roi` equals the composition of `orig2std` followed by the
standard-to-ROI transform within the same tolerance. -/
theorem c3_transform_chain (S R : M4) (hS : IsUnit S.det)
    (hR : IsUnit R.det) :
    (transformFiles S R).length = 6 ∧
    (transformFiles S R).map Prod.fst =
      ["T1_orig2std.mat", "T1_std2orig.mat", "T1_roi2nonroi.mat",
       "T1_nonroi2roi.mat", "T1_orig2roi.mat", "T1_roi2orig.mat"] ∧
    (∀ i j, |(matFile (transformFiles S R) "T1_orig2std.mat" *
        matFile (transformFiles S R) "T1_std2orig.mat" - 1) i j| ≤
        1 / 1000000) ∧
    (∀ i j, |(matFile (transformFiles S R) "T1_roi2nonroi.mat" *
        matFile (transformFiles S R) "T1_nonroi2roi.mat" - 1) i j| ≤
        1 / 1000000) ∧
    (∀ i j, |(matFile (transformFiles S R) "T1_orig2roi.mat" *
        matFile (transformFiles S R) "T1_roi2orig.mat" - 1) i j| ≤
        1 / 1000000) ∧
    (∀ i j, |(matFile (transformFiles S R) "T1_orig2roi.mat" -
        matFile (transformFiles S R) "T1_nonroi2roi.mat" *
          matFile (transformFiles S R) "T1_orig2std.mat") i j| ≤
        1 / 1000000) := by
  have h1 : matFile (transformFiles S R) "T1_orig2std.mat" = S := rfl
  have h2 : matFile (transformFiles S R) "T1_std2orig.mat" =
      convertXfmInverse S := rfl
  have h3 : matFile (transformFiles S R) "T1_roi2nonroi.mat" = R := rfl
  have h4 : matFile (transformFiles S R) "T1_nonroi2roi.mat" =
      convertXfmInverse R := rfl
  have h5 : matFile (transformFiles S R) "T1_orig2roi.mat" =
      convertXfmConcat (convertXfmInverse R) S := rfl
  have h6 : matFile (transformFiles S R) "T1_roi2orig.mat" =
      convertXfmInverse (convertXfmConcat (convertXfmInverse R) S) := rfl
  have hRdet : IsUnit (convertXfmInverse R).det := by
    rw [convertXfmInverse_eq_inv]
    exact Matrix.isUnit_nonsing_inv_det R hR
  have hC : IsUnit (convertXfmConcat (convertXfmInverse R) S).det := by
    unfold convertXfmConcat
    rw [Matrix.det_mul]
    exact hRdet.mul hS
  refine ⟨rfl, rfl, ?_, ?_, ?_, ?_⟩
  · rw [h1, h2, convertXfmInverse_eq_inv, Matrix.mul_nonsing_inv S hS]
    intro i j
    simp
  · rw [h3, h4, convertXfmInverse_eq_inv, Matrix.mul_nonsing_inv R hR]
    intro i j
    simp
  · rw [h5, h6,
      convertXfmInverse_eq_inv (convertXfmConcat (convertXfmInverse R) S),
      Matrix.mul_nonsing_inv _ hC]
    intro i j
    simp
  · rw [h5, h4, h1]
    unfold convertXfmConcat
    intro i j
    simp

/-- C3 witness: the conclusions hold at identity estimator outputs. -/
theorem c3_transform_chain_witness :
    IsUnit (1 : M4).det ∧
    ((transformFiles 1 1).length = 6 ∧
      (transformFiles 1 1).map Prod.fst =
        ["T1_orig2std.mat", "T1_std2orig.mat", "T1_roi2nonroi.mat",
         "T1_nonroi2roi.mat", "T1_orig2roi.mat", "T1_roi2orig.mat"] ∧
      (∀ i j, |(matFile (transformFiles 1 1) "T1_orig2std.mat" *
          matFile (transformFiles 1 1) "T1_std2orig.mat" - 1) i j| ≤
          1 / 1000000) ∧
      (∀ i j, |(matFile (transformFiles 1 1) "T1_roi2nonroi.mat" *
          matFile (transformFiles 1 1) "T1_nonroi2roi.mat" - 1) i j| ≤
          1 / 1000000) ∧
      (∀ i j, |(matFile (transformFiles 1 1) "T1_orig2roi.mat" *
          matFile (transformFiles 1 1) "T1_roi2orig.mat" - 1) i j| ≤
          1 / 1000000) ∧
      (∀ i j, |(matFile (transformFiles 1 1) "T1_orig2roi.mat" -
          matFile (transformFiles 1 1) "T1_nonroi2roi.mat" *
            matFile (transformFiles 1 1) "T1_orig2std.mat") i j| ≤
          1 / 1000000)) :=
  ⟨by simp, c3_transform_chain 1 1 (by simp) (by simp)⟩
